import Mathlib

/-!
Shallow embedding of the chi REST example server in
`src/webserver/webserver.go` (package main).

The Go program keeps its entire mutable state in package-level variables
(`IP`, `SSID`, ..., `Mode`, `Heating`, `articles`); we gather them into a
`State` record and model every HTTP handler as a pure function
`State → input → State × output`.  Go slices become `List`, Go
`[2]string` arrays become `String × String` (index 0 is `.1`, index 1 is
`.2`), fallible db functions return `Option`/`Except`, and the two
sources of nondeterminism — `rand.Float64()` in `dbGetTemp` and
`rand.Intn(100)` in `dbNewArticle` — become explicit parameters (a
rational `r` standing for the float draw, a natural `n` for the integer
draw), so that "freshly generated on every request" is modelled by the
parameter being supplied per call.

`render.Bind` (JSON decode followed by the payload's `Bind` method) is
modelled by handlers taking an `Except String body` argument: `.error e`
is a syntactically malformed body (the decoder rejects it before writing
any field), `.ok b` a syntactically valid body; the payload-level `Bind`
post-processing from the source is applied inside the handler.  For the
article endpoints a syntactically valid body can still fail to bind with
a type mismatch: per encoding/json semantics the decoder writes the
well-typed fields into the target and then returns the type error, so
`ArticleBody` carries an optional `typeError`.  This matters for
PUT /rest/v1/{articleID}, whose decode target is seeded with the live
pointer into the global articles slice — the partial write lands in the
store even though the handler answers 400.  A handler's HTTP answer is
`ErrResponse ⊕ (Nat × payload)`: either an error rendering (which
carries its status code) or a success status code with the rendered
payload.
-/

namespace Webserver

/-- The Go `Article` data model: `ID string`, `UserID int64` (the author),
`Title string`, `Slug string`. -/
structure Article where
  id : String
  userId : Int
  title : String
  slug : String
deriving Repr, DecidableEq

/-- The Go `User` data model: `ID int64`, `Name string`. -/
structure User where
  id : Int
  name : String
deriving Repr, DecidableEq

/-- All package-level mutable variables of webserver.go in one record.
`Mode` and `Heating` are the Go `[2]string` arrays: component `.1` is
index 0, component `.2` is index 1. -/
structure State where
  IP : String
  SSID : String
  PassPhrase : String
  CurrentTime : String
  CurrentTemp : String
  NightTemp : String
  DayTemp : String
  Thereshold : String
  Day : String
  Night : String
  Mode : String × String
  Heating : String × String
  articles : List Article
deriving Repr, DecidableEq

/-- Go global `CurrentStateOfMode = "night"`; it is declared once and no
statement in the source ever reassigns it. -/
def CurrentStateOfMode : String := "night"

/-- Go global `CurrentStateOfHeating = "off"`; likewise never reassigned. -/
def CurrentStateOfHeating : String := "off"

/-- The article fixture data (`var articles = []*Article{...}`). -/
def articlesFixture : List Article :=
  [ { id := "1", userId := 100, title := "Hi", slug := "hi" },
    { id := "2", userId := 200, title := "sup", slug := "sup" },
    { id := "3", userId := 300, title := "alo", slug := "alo" },
    { id := "4", userId := 400, title := "bonjour", slug := "bonjour" },
    { id := "5", userId := 500, title := "whats up", slug := "whats-up" } ]

/-- The user fixture data (`var users = []*User{...}`); never mutated, so
kept as a constant rather than a `State` field. -/
def users : List User :=
  [ { id := 100, name := "Peter" }, { id := 200, name := "Julia" } ]

/-- The initial values of the package-level variables.  `CurrentTime` is
`time.Now().Format(...)` at process start, so it is a parameter. -/
def initState (now : String) : State :=
  { IP := "192.168.1.123"
    SSID := "MrWhite"
    PassPhrase := "F"
    CurrentTime := now
    CurrentTemp := "22.00"
    NightTemp := "18.00"
    DayTemp := "24.00"
    Thereshold := "0.20"
    Day := "06:00"
    Night := "22:00"
    Mode := (CurrentStateOfMode, "auto")
    Heating := (CurrentStateOfHeating, "auto")
    articles := articlesFixture }

/-- The Go `ErrResponse` payload (the JSON-invisible `Err` field is
dropped; `AppCode` is never set by this program). -/
structure ErrResponse where
  httpStatusCode : Nat
  statusText : String
  errorText : String
deriving Repr, DecidableEq

/-- `ErrInvalidRequest(err)`: status 400, status text "Invalid request.",
error text `err.Error()`. -/
def ErrInvalidRequest (err : String) : ErrResponse :=
  { httpStatusCode := 400, statusText := "Invalid request.", errorText := err }

/-- `ErrRender(err)`: status 422, "Error rendering response.". -/
def ErrRender (err : String) : ErrResponse :=
  { httpStatusCode := 422, statusText := "Error rendering response.", errorText := err }

/-- `var ErrNotFound = &ErrResponse{HTTPStatusCode: 404, StatusText: "Resource not found."}`. -/
def ErrNotFound : ErrResponse :=
  { httpStatusCode := 404, statusText := "Resource not found.", errorText := "" }

/-- A handler's HTTP answer: an error rendering, or a success status code
with a payload. -/
abbrev Resp (α : Type) : Type := ErrResponse ⊕ (Nat × α)

/-- The Go `Device` response payload. -/
structure Device where
  IP : String
  SSID : String
  PassPhrase : String
  CurrentTime : String
deriving Repr, DecidableEq

/-- Go `strings.ToLower` restricted to what this program feeds it:
character-wise lower-casing (defined over the character list so that it
reduces on concrete strings). -/
def lowerString (s : String) : String :=
  String.mk (s.data.map Char.toLower)

/-- `dbGetDevice`: copies the four device globals into a fresh record. -/
def dbGetDevice (s : State) : Device :=
  { IP := s.IP, SSID := s.SSID, PassPhrase := s.PassPhrase, CurrentTime := s.CurrentTime }

/-- `GetDevice` handler: renders `dbGetDevice()` with the default 200. -/
def GetDevice (s : State) : State × Resp Device :=
  (s, Sum.inr (200, dbGetDevice s))

/-- The Go `Temp` payload: four temperature strings. -/
structure Temp where
  CurrentTemp : String
  NightTemp : String
  DayTemp : String
  Thereshold : String
deriving Repr, DecidableEq

/-- `const min = -10` of webserver.go. -/
def tempMin : ℚ := -10

/-- `const max = 40` of webserver.go. -/
def tempMax : ℚ := 40

/-- Left-pads a digit string with zeros to length `k`. -/
def padZeros (s : String) (k : Nat) : String :=
  String.mk (List.replicate (k - s.length) '0') ++ s

/-- Models Go `fmt.Sprintf("%f", x)` on an exact rational: sign, integer
part, and six fractional digits, the value rounded to the nearest
multiple of 10⁻⁶.  (binary floating-point rounding of the underlying
float64 is not modelled; the claims only use that the string is the
%f-rendering of the drawn value.) -/
def formatF (q : ℚ) : String :=
  let scaled : ℤ := round (q * 1000000)
  let sign := if scaled < 0 then "-" else ""
  let n := scaled.natAbs
  sign ++ toString (n / 1000000) ++ "." ++ padZeros (toString (n % 1000000)) 6

/-- `dbGetTemp`: `CurrentTemp` is freshly computed as
`fmt.Sprintf("%f", min+rand.Float64()*(max-min))` — the draw
`rand.Float64()` is the parameter `r` — and the other three fields copy
the globals.  The global `CurrentTemp` variable is not read and not
written. -/
def dbGetTemp (s : State) (r : ℚ) : Temp :=
  { CurrentTemp := formatF (tempMin + r * (tempMax - tempMin))
    DayTemp := s.DayTemp
    NightTemp := s.NightTemp
    Thereshold := s.Thereshold }

/-- `GetTemp` handler: renders `dbGetTemp()` with the default 200. -/
def GetTemp (s : State) (r : ℚ) : State × Resp Temp :=
  (s, Sum.inr (200, dbGetTemp s r))

/-- `dbUpdateTemp`: overwrites the `DayTemp`, `NightTemp` and `Thereshold`
globals with the request's fields (the request's `currenttemp` is
ignored). -/
def dbUpdateTemp (s : State) (temp : Temp) : State :=
  { s with DayTemp := temp.DayTemp, NightTemp := temp.NightTemp, Thereshold := temp.Thereshold }

/-- `UpdateTemp` handler: on bind failure renders `ErrInvalidRequest`; on
success calls `dbUpdateTemp` and renders `dbGetTemp()` on the updated
state (`Temp`'s `Bind` method does no post-processing).  `r` is the
float draw of the `dbGetTemp` in the response. -/
def UpdateTemp (s : State) (body : Except String Temp) (r : ℚ) : State × Resp Temp :=
  match body with
  | Except.error e => (s, Sum.inl (ErrInvalidRequest e))
  | Except.ok t =>
      let s' := dbUpdateTemp s t
      (s', Sum.inr (200, dbGetTemp s' r))

/-- The Go `Times` payload: `Day`, `Night` (HH:MM strings). -/
structure Times where
  Day : String
  Night : String
deriving Repr, DecidableEq

/-- `dbGetTime`: copies the `Day` and `Night` globals. -/
def dbGetTime (s : State) : Times :=
  { Day := s.Day, Night := s.Night }

/-- `GetTime` handler. -/
def GetTime (s : State) : State × Resp Times :=
  (s, Sum.inr (200, dbGetTime s))

/-- `Times.Bind`: down-cases `Day` after decode. -/
def timesBind (t : Times) : Times :=
  { t with Day := lowerString t.Day }

/-- `dbUpdateTime`: overwrites the `Day` and `Night` globals. -/
def dbUpdateTime (s : State) (t : Times) : State :=
  { s with Day := t.Day, Night := t.Night }

/-- `UpdateTime` handler: bind (including `Times.Bind` post-processing),
update the globals, render `dbGetTime()` on the updated state. -/
def UpdateTime (s : State) (body : Except String Times) : State × Resp Times :=
  match body with
  | Except.error e => (s, Sum.inl (ErrInvalidRequest e))
  | Except.ok t0 =>
      let s' := dbUpdateTime s (timesBind t0)
      (s', Sum.inr (200, dbGetTime s'))

/-- The Go `Modes` response payload: two `[2]string` pairs. -/
structure Modes where
  Mode : String × String
  Heating : String × String
deriving Repr, DecidableEq

/-- The Go `ModesIn` request payload: incoming `mode` and heating
strings. -/
structure ModesIn where
  Mode : String
  Heating : String
deriving Repr, DecidableEq

/-- `dbGetMode`: copies the `Mode` and `Heating` global pairs. -/
def dbGetMode (s : State) : Modes :=
  { Mode := s.Mode, Heating := s.Heating }

/-- `GetMode` handler. -/
def GetMode (s : State) : State × Resp Modes :=
  (s, Sum.inr (200, dbGetMode s))

/-- `dbUpdateMode`: `Heating[1] = mode.Heating; Heating[0] =
CurrentStateOfHeating; Mode[1] = mode.Mode; Mode[0] = CurrentStateOfMode`.
No check of the incoming strings against any enumerated set. -/
def dbUpdateMode (s : State) (mode : ModesIn) : State :=
  { s with
      Heating := (CurrentStateOfHeating, mode.Heating)
      Mode := (CurrentStateOfMode, mode.Mode) }

/-- `UpdateMode` handler: bind (`ModesIn`'s `Bind` does no
post-processing), `dbUpdateMode`, render `dbGetMode()` on the updated
state. -/
def UpdateMode (s : State) (body : Except String ModesIn) : State × Resp Modes :=
  match body with
  | Except.error e => (s, Sum.inl (ErrInvalidRequest e))
  | Except.ok m =>
      let s' := dbUpdateMode s m
      (s', Sum.inr (200, dbGetMode s'))

/-- The Go `UserPayload` response wrapper: a `User` plus a `role` field
set by its `Render`. -/
structure UserPayload where
  user : User
  role : String
deriving Repr, DecidableEq

/-- `NewUserPayloadResponse(user)`: wraps a user, `Role` still zero. -/
def NewUserPayloadResponse (user : User) : UserPayload :=
  { user := user, role := "" }

/-- The JSON fields of an article request body, each optional (absent
fields leave the decoded-into struct untouched, as Go `json.Unmarshal`
does).  `id` is listed here but — because `ArticleRequest.ProtectedID`
carries the `json:"id"` tag at a shallower embedding depth than
`Article.ID` — it decodes into `ProtectedID`, never into `Article.ID`.
`typeError = some e` models a syntactically valid body with a type
mismatch on some field: per encoding/json semantics the decoder writes
the well-typed fields (the `Option` components here) into the target and
then returns the `UnmarshalTypeError` `e`. -/
structure ArticleBody where
  id : Option String
  userId : Option Int
  title : Option String
  slug : Option String
  typeError : Option String
deriving Repr, DecidableEq

/-- What decoding a body into an existing article leaves in that article:
present well-typed fields overwrite, absent (or mistyped) fields keep
their value; the `id` field goes to `ProtectedID`, so `Article.ID` is
untouched. -/
def applyBody (p : Article) (b : ArticleBody) : Article :=
  { id := p.id
    userId := b.userId.getD p.userId
    title := b.title.getD p.title
    slug := b.slug.getD p.slug }

/-- The Go `ArticleRequest` payload after JSON decode: the embedded
`*Article` (nil when the body carried no Article fields) and the
`ProtectedID` field that captures the body's `id`.  (The optional `user`
sub-payload plays no role in any handler and is omitted.) -/
structure ArticleRequest where
  article : Option Article
  protectedID : String
deriving Repr, DecidableEq

/-- Models `json.Unmarshal` of a body into `&ArticleRequest{Article: prev}`:
the body's `id` lands in `ProtectedID`; the other fields overwrite the
corresponding fields of the embedded article when present.  When `prev`
is `none` (the create path), Go allocates the embedded `Article` only if
the body carries at least one of its fields — a body with only `id` (or
nothing) leaves it nil. -/
def decodeArticleRequest (prev : Option Article) (b : ArticleBody) : ArticleRequest :=
  let base : Option Article :=
    match prev with
    | some p => some p
    | none =>
        if b.userId.isSome || b.title.isSome || b.slug.isSome then
          some { id := "", userId := 0, title := "", slug := "" }
        else none
  { article := base.map (fun p => applyBody p b)
    protectedID := b.id.getD "" }

/-- `ArticleRequest.Bind`: errors when the embedded article is nil,
otherwise unsets `ProtectedID` and down-cases the title. -/
def articleRequestBind (a : ArticleRequest) : Except String ArticleRequest :=
  match a.article with
  | none => Except.error "missing required Article fields"
  | some art =>
      Except.ok { article := some { art with title := lowerString art.title }, protectedID := "" }

/-- `render.Bind(r, &ArticleRequest{Article: prev})` as seen by a caller
that only looks at the returned value (the create path, whose decode
target is a fresh struct): a malformed body fails outright, a valid body
with a type mismatch fails with that error after the (discarded) partial
write, and otherwise `ArticleRequest.Bind` runs. -/
def renderBindArticle (prev : Option Article) (body : Except String ArticleBody) :
    Except String ArticleRequest :=
  match body with
  | Except.error e => Except.error e
  | Except.ok b =>
      match b.typeError with
      | some e => Except.error e
      | none => articleRequestBind (decodeArticleRequest prev b)

/-- `dbGetUser`: linear scan of the user fixture by id. -/
def dbGetUser (id : Int) : Option User :=
  users.find? (fun u => u.id == id)

/-- The Go `ArticleResponse`: the article, the decorating user payload,
and the `elapsed` computed field. -/
structure ArticleResponse where
  article : Article
  user : Option UserPayload
  elapsed : Int
deriving Repr, DecidableEq

/-- `NewArticleResponse(article)`: attaches the author's user payload when
`dbGetUser` finds one. -/
def NewArticleResponse (article : Article) : ArticleResponse :=
  { article := article
    user := (dbGetUser article.userId).map NewUserPayloadResponse
    elapsed := 0 }

/-- The top-down `Render` pass over an `ArticleResponse`: sets
`Elapsed = 10`, then `UserPayload.Render` sets `Role = "collaborator"`. -/
def renderArticleResponse (rd : ArticleResponse) : ArticleResponse :=
  { rd with
      elapsed := 10
      user := rd.user.map (fun up => { up with role := "collaborator" }) }

/-- `dbNewArticle`: `article.ID = fmt.Sprintf("%d", rand.Intn(100)+10)`
(`n` is the value drawn by `rand.Intn(100)`), then append to the articles
slice; returns the new id. -/
def dbNewArticle (s : State) (article : Article) (n : Nat) : State × String :=
  let a := { article with id := toString (n + 10) }
  ({ s with articles := s.articles ++ [a] }, a.id)

/-- `dbGetArticle`: first article whose `ID` equals `id`, else error. -/
def dbGetArticle (s : State) (id : String) : Option Article :=
  s.articles.find? (fun a => a.id == id)

/-- `dbGetArticleBySlug`: first article whose `Slug` equals `slug`. -/
def dbGetArticleBySlug (s : State) (slug : String) : Option Article :=
  s.articles.find? (fun a => a.slug == slug)

/-- Replaces the first list entry whose id matches; `none` when no entry
matches (the `dbUpdateArticle` loop). -/
def replaceFirst (l : List Article) (id : String) (article : Article) : Option (List Article) :=
  match l with
  | [] => none
  | a :: rest =>
      if a.id == id then some (article :: rest)
      else (replaceFirst rest id article).map (fun l' => a :: l')

/-- `dbUpdateArticle`: overwrite the first slot whose id matches; the
state is unchanged when no article matches (the handlers ignore the
returned error). -/
def dbUpdateArticle (s : State) (id : String) (article : Article) : State :=
  match replaceFirst s.articles id article with
  | some l => { s with articles := l }
  | none => s

/-- Removes the first list entry whose id matches, returning it and the
remaining list (the `dbRemoveArticle` loop). -/
def removeFirst (l : List Article) (id : String) : Option (Article × List Article) :=
  match l with
  | [] => none
  | a :: rest =>
      if a.id == id then some (a, rest)
      else (removeFirst rest id).map (fun p => (p.1, a :: p.2))

/-- `ArticleCtx` middleware: a nonempty `articleID` URL parameter is
looked up by id, else a nonempty `articleSlug` by slug, else 404; a
failed lookup is 404.  On success the found article is put on the
request context for the wrapped handler. -/
def articleCtx (s : State) (articleID articleSlug : String) : Except ErrResponse Article :=
  if articleID ≠ "" then
    match dbGetArticle s articleID with
    | some a => Except.ok a
    | none => Except.error ErrNotFound
  else if articleSlug ≠ "" then
    match dbGetArticleBySlug s articleSlug with
    | some a => Except.ok a
    | none => Except.error ErrNotFound
  else Except.error ErrNotFound

/-- `CreateArticle` handler: bind an `ArticleRequest` (no prior article),
`dbNewArticle` with random draw `n`, respond 201 with the created
article's response payload. -/
def CreateArticle (s : State) (body : Except String ArticleBody) (n : Nat) :
    State × Resp ArticleResponse :=
  match renderBindArticle none body with
  | Except.error e => (s, Sum.inl (ErrInvalidRequest e))
  | Except.ok req =>
      match req.article with
      | none => (s, Sum.inl (ErrInvalidRequest "missing required Article fields"))
      | some article =>
          let res := dbNewArticle s article n
          (res.1,
           Sum.inr (201, renderArticleResponse (NewArticleResponse { article with id := res.2 })))

/-- `GET /rest/v1/{articleID}`: `ArticleCtx` then `GetArticle`, which
renders the context article's response payload. -/
def GetArticleById (s : State) (id : String) : State × Resp ArticleResponse :=
  match articleCtx s id "" with
  | Except.error e => (s, Sum.inl e)
  | Except.ok a => (s, Sum.inr (200, renderArticleResponse (NewArticleResponse a)))

/-- `GET /rest/v1/{articleSlug:[a-z-]+}`: `ArticleCtx` (slug branch) then
`GetArticle`. -/
def GetArticleBySlugReq (s : State) (slug : String) : State × Resp ArticleResponse :=
  match articleCtx s "" slug with
  | Except.error e => (s, Sum.inl e)
  | Except.ok a => (s, Sum.inr (200, renderArticleResponse (NewArticleResponse a)))

/-- The body of `UpdateArticle` once `ArticleCtx` has put the live
article pointer on the context.  `render.Bind` decodes into
`&ArticleRequest{Article: loaded}`, where `loaded` is the pointer to the
first stored article with the requested id: a malformed body decodes
nothing; a syntactically valid body writes its well-typed fields through
that pointer into the store (the slot `loaded` occupies, the first with
its id) and, on a type mismatch, fails with the 400 only after that
write.  On success `ArticleRequest.Bind` (the seeded article is never
nil) clears `ProtectedID` and down-cases the title through the same
pointer, and `dbUpdateArticle` re-stores the article under its kept
id. -/
def updateArticleFound (s : State) (loaded : Article) (body : Except String ArticleBody) :
    State × Resp ArticleResponse :=
  match body with
  | Except.error e => (s, Sum.inl (ErrInvalidRequest e))
  | Except.ok b =>
      let decoded := applyBody loaded b
      let sDecoded := dbUpdateArticle s loaded.id decoded
      match b.typeError with
      | some e => (sDecoded, Sum.inl (ErrInvalidRequest e))
      | none =>
          let bound := { decoded with title := lowerString decoded.title }
          (dbUpdateArticle sDecoded loaded.id bound,
           Sum.inr (200, renderArticleResponse (NewArticleResponse bound)))

/-- `PUT /rest/v1/{articleID}`: `ArticleCtx` (404 before any decode when
the id is absent), then `updateArticleFound` on the loaded article. -/
def UpdateArticleById (s : State) (id : String) (body : Except String ArticleBody) :
    State × Resp ArticleResponse :=
  match articleCtx s id "" with
  | Except.error e => (s, Sum.inl e)
  | Except.ok loaded => updateArticleFound s loaded body

/-- `DELETE /rest/v1/{articleID}`: `ArticleCtx`, `dbRemoveArticle` (whose
error path — unreachable after a successful lookup — renders
`ErrInvalidRequest`), render the removed article. -/
def DeleteArticleById (s : State) (id : String) : State × Resp ArticleResponse :=
  match articleCtx s id "" with
  | Except.error e => (s, Sum.inl e)
  | Except.ok a =>
      match removeFirst s.articles a.id with
      | none => (s, Sum.inl (ErrInvalidRequest "article not found"))
      | some p =>
          ({ s with articles := p.2 },
           Sum.inr (200, renderArticleResponse (NewArticleResponse p.1)))

/-- `GET /rest/v1/` (`ListArticles`): renders the response payload of
every article in order. -/
def ListArticles (s : State) : State × Resp (List ArticleResponse) :=
  (s, Sum.inr (200, s.articles.map (fun a => renderArticleResponse (NewArticleResponse a))))

/-- The chi route pattern `[a-z-]+` on `articleSlug`: one or more
characters, each a lowercase letter or a hyphen. -/
def slugPattern (slug : String) : Bool :=
  slug.length > 0 && slug.toList.all (fun c => ('a' ≤ c && c ≤ 'z') || c == '-')

/-- The value found under the `"acl.admin"` context key: absent, present
with boolean type, or present with some non-boolean type (so that the Go
type assertion `.(bool)` fails). -/
inductive AclVal where
  | missing
  | boolVal (b : Bool)
  | nonBool
deriving Repr, DecidableEq

/-- The three admin sub-routes. -/
inductive AdminRoute where
  | index
  | accounts
  | userView (userId : String)
deriving Repr, DecidableEq

/-- The static text each admin handler writes. -/
def adminHandlerText : AdminRoute → String
  | AdminRoute.index => "admin: index"
  | AdminRoute.accounts => "admin: list accounts.."
  | AdminRoute.userView uid => "admin: view user id " ++ uid

/-- `AdminOnly` middleware wrapping an admin route: unless the context
value under `"acl.admin"` type-asserts to `bool` and is `true`, answer
403 with `http.StatusText(403) = "Forbidden"` and never call the wrapped
handler; otherwise the handler runs and writes its static text with 200.
The boolean in the result records whether the wrapped handler ran. -/
def adminOnly (ctx : AclVal) (route : AdminRoute) : (Nat × String) × Bool :=
  match ctx with
  | AclVal.boolVal true => ((200, adminHandlerText route), true)
  | _ => ((403, "Forbidden"), false)

/-- One observable REST operation with its nondeterministic inputs made
explicit; used to speak about arbitrary request sequences. -/
inductive Op where
  | listArticles
  | createArticle (body : Except String ArticleBody) (n : Nat)
  | getDevice
  | getTime
  | putTime (body : Except String Times)
  | getTemp (r : ℚ)
  | putTemp (body : Except String Temp) (r : ℚ)
  | getMode
  | putMode (body : Except String ModesIn)
  | getArticle (id : String)
  | putArticle (id : String) (body : Except String ArticleBody)
  | deleteArticle (id : String)
  | getArticleBySlug (slug : String)

/-- The state after serving one request: the first component of the
corresponding handler. -/
def step (s : State) (op : Op) : State :=
  match op with
  | Op.listArticles => (ListArticles s).1
  | Op.createArticle body n => (CreateArticle s body n).1
  | Op.getDevice => (GetDevice s).1
  | Op.getTime => (GetTime s).1
  | Op.putTime body => (UpdateTime s body).1
  | Op.getTemp r => (GetTemp s r).1
  | Op.putTemp body r => (UpdateTemp s body r).1
  | Op.getMode => (GetMode s).1
  | Op.putMode body => (UpdateMode s body).1
  | Op.getArticle id => (GetArticleById s id).1
  | Op.putArticle id body => (UpdateArticleById s id body).1
  | Op.deleteArticle id => (DeleteArticleById s id).1
  | Op.getArticleBySlug slug => (GetArticleBySlugReq s slug).1

/-! Helper lemmas shared by several claims. -/

theorem find?_first_split {α : Type} (p : α → Bool) :
    ∀ (l : List α) (a : α), l.find? p = some a →
      p a = true ∧ ∃ l1 l2, l = l1 ++ a :: l2 ∧ ∀ x ∈ l1, p x = false := by
  intro l
  induction l with
  | nil => intro a h; simp [List.find?] at h
  | cons x xs ih =>
      intro a h
      by_cases hx : p x = true
      · rw [List.find?_cons_of_pos _ hx] at h
        cases h
        exact ⟨hx, [], xs, rfl, by simp⟩
      · rw [List.find?_cons_of_neg _ (by simpa using hx)] at h
        obtain ⟨hpa, l1, l2, hsplit, hall⟩ := ih a h
        refine ⟨hpa, x :: l1, l2, by simp [hsplit], ?_⟩
        intro y hy
        rcases List.mem_cons.mp hy with rfl | hy'
        · simpa using hx
        · exact hall y hy'

theorem find?_remove_first (l : List Article) (id : String) (a : Article)
    (h : l.find? (fun x => x.id == id) = some a) :
    a.id = id ∧ ∃ rest, removeFirst l id = some (a, rest) := by
  induction l with
  | nil => simp [List.find?] at h
  | cons x xs ih =>
      by_cases hx : x.id = id
      · rw [List.find?_cons_of_pos _ (by simpa using hx)] at h
        cases h
        exact ⟨hx, xs, by simp [removeFirst, hx]⟩
      · rw [List.find?_cons_of_neg _ (by simpa using hx)] at h
        obtain ⟨ha, rest, hrest⟩ := ih h
        exact ⟨ha, x :: rest, by simp [removeFirst, hx, hrest]⟩

/-- Slot-zero preservation of one request step: every operation leaves
`Mode[0]` and `Heating[0]` at the never-reassigned globals. -/
theorem step_preserves_slot0 (s : State) (op : Op)
    (h : s.Mode.1 = CurrentStateOfMode ∧ s.Heating.1 = CurrentStateOfHeating) :
    (step s op).Mode.1 = CurrentStateOfMode ∧
      (step s op).Heating.1 = CurrentStateOfHeating := by
  cases op <;>
    simp only [step, ListArticles, CreateArticle, GetDevice, GetTime, UpdateTime,
      GetTemp, UpdateTemp, GetMode, UpdateMode, GetArticleById, UpdateArticleById,
      updateArticleFound, DeleteArticleById, GetArticleBySlugReq, dbUpdateTime,
      dbUpdateTemp, dbUpdateMode, dbUpdateArticle, dbNewArticle, applyBody] <;>
    (repeat' split) <;>
    simp_all [CurrentStateOfMode, CurrentStateOfHeating]

theorem foldl_preserves_slot0 (ops : List Op) :
    ∀ s : State, s.Mode.1 = CurrentStateOfMode ∧ s.Heating.1 = CurrentStateOfHeating →
      (ops.foldl step s).Mode.1 = CurrentStateOfMode ∧
        (ops.foldl step s).Heating.1 = CurrentStateOfHeating := by
  induction ops with
  | nil => intro s h; simpa using h
  | cons op rest ih =>
      intro s h
      simpa [List.foldl] using ih (step s op) (step_preserves_slot0 s op h)

/-! The claims. -/

/-- C1: a PUT /rest/v1/mode whose body binds to a `ModesIn` record makes
`dbUpdateMode` write `CurrentStateOfMode` into `Mode[0]` and the incoming
mode string into `Mode[1]`, and `CurrentStateOfHeating` into `Heating[0]`
and the incoming heating string into `Heating[1]`, for arbitrary
(unvalidated) incoming strings, and the response echoes the resulting
pairs. -/
theorem C1_updateMode_shifts_current (s : State) (body : Except String ModesIn)
    (m : ModesIn) (h : body = Except.ok m) :
    (UpdateMode s body).1 = dbUpdateMode s m ∧
    (dbUpdateMode s m).Mode = (CurrentStateOfMode, m.Mode) ∧
    (dbUpdateMode s m).Heating = (CurrentStateOfHeating, m.Heating) ∧
    (UpdateMode s body).2 = Sum.inr (200, dbGetMode (dbUpdateMode s m)) ∧
    dbGetMode (dbUpdateMode s m) =
      { Mode := (CurrentStateOfMode, m.Mode)
        Heating := (CurrentStateOfHeating, m.Heating) } := by
  subst h
  exact ⟨rfl, rfl, rfl, rfl, rfl⟩

/-- Witness for C1 at the concrete (non-enumerated) body
`{mode := "whatever", heating := "blazing"}`. -/
theorem C1_witness :
    (UpdateMode (initState "now") (Except.ok ⟨"whatever", "blazing"⟩)).1.Mode =
        (CurrentStateOfMode, "whatever") ∧
      (UpdateMode (initState "now") (Except.ok ⟨"whatever", "blazing"⟩)).1.Heating =
        (CurrentStateOfHeating, "blazing") := by
  have h := C1_updateMode_shifts_current (initState "now")
    (Except.ok ⟨"whatever", "blazing"⟩) ⟨"whatever", "blazing"⟩ rfl
  exact ⟨by rw [h.1]; exact h.2.1, by rw [h.1]; exact h.2.2.1⟩

/-- C2: a GET /rest/v1/temp leaves the state (hence every global,
including `CurrentTemp`, `DayTemp`, `NightTemp` and `Thereshold`)
unchanged; its `currenttemp` field is the %f-rendering of the freshly
drawn value `min + r·(max−min)`, which lies in `[-10, 40)` whenever the
draw `r` lies in `[0, 1)`; and the `daytemp`, `nighttemp` and
`thereshold` fields copy the globals. -/
theorem C2_getTemp_random_not_persisted (s : State) (r : ℚ)
    (h0 : 0 ≤ r) (h1 : r < 1) :
    (GetTemp s r).1 = s ∧
    (GetTemp s r).2 = Sum.inr (200, dbGetTemp s r) ∧
    (dbGetTemp s r).CurrentTemp = formatF (tempMin + r * (tempMax - tempMin)) ∧
    tempMin ≤ tempMin + r * (tempMax - tempMin) ∧
    tempMin + r * (tempMax - tempMin) < tempMax ∧
    (dbGetTemp s r).DayTemp = s.DayTemp ∧
    (dbGetTemp s r).NightTemp = s.NightTemp ∧
    (dbGetTemp s r).Thereshold = s.Thereshold := by
  refine ⟨rfl, rfl, rfl, ?_, ?_, rfl, rfl, rfl⟩
  · simp only [tempMin, tempMax]
    nlinarith
  · simp only [tempMin, tempMax]
    nlinarith

/-- Witness for C2 at the draw `r = 1/2` on the initial state. -/
theorem C2_witness :
    (GetTemp (initState "now") (1/2)).1 = initState "now" ∧
      tempMin + (1/2) * (tempMax - tempMin) < tempMax :=
  ⟨(C2_getTemp_random_not_persisted (initState "now") (1/2) (by norm_num) (by norm_num)).1,
   (C2_getTemp_random_not_persisted (initState "now") (1/2) (by norm_num)
      (by norm_num)).2.2.2.2.1⟩

/-- C5: a PUT /rest/v1/temp whose body binds to a `Temp` record
overwrites the `DayTemp`, `NightTemp` and `Thereshold` globals with the
request's fields and echoes the stored values back in the response's
`daytemp`, `nighttemp` and `thereshold` fields. -/
theorem C5_updateTemp_overwrites_and_echoes (s : State) (body : Except String Temp)
    (t : Temp) (r : ℚ) (h : body = Except.ok t) :
    (UpdateTemp s body r).1 = dbUpdateTemp s t ∧
    (dbUpdateTemp s t).DayTemp = t.DayTemp ∧
    (dbUpdateTemp s t).NightTemp = t.NightTemp ∧
    (dbUpdateTemp s t).Thereshold = t.Thereshold ∧
    (UpdateTemp s body r).2 = Sum.inr (200, dbGetTemp (dbUpdateTemp s t) r) ∧
    (dbGetTemp (dbUpdateTemp s t) r).DayTemp = t.DayTemp ∧
    (dbGetTemp (dbUpdateTemp s t) r).NightTemp = t.NightTemp ∧
    (dbGetTemp (dbUpdateTemp s t) r).Thereshold = t.Thereshold := by
  subst h
  exact ⟨rfl, rfl, rfl, rfl, rfl, rfl, rfl, rfl⟩

/-- Witness for C5 at a concrete body on the initial state. -/
theorem C5_witness :
    (UpdateTemp (initState "now")
        (Except.ok ⟨"1.00", "17.00", "25.00", "0.50"⟩) 0).1.DayTemp = "25.00" := by
  have h := C5_updateTemp_overwrites_and_echoes (initState "now")
    (Except.ok ⟨"1.00", "17.00", "25.00", "0.50"⟩) ⟨"1.00", "17.00", "25.00", "0.50"⟩ 0 rfl
  rw [h.1]
  exact h.2.1

/-- C8: a request to an admin route whose context does not carry a
boolean `true` under the `"acl.admin"` key is answered 403 "Forbidden"
and the wrapped handler never runs; when the flag is present, boolean,
and `true`, the handler runs and writes its static text. -/
theorem C8_adminOnly_gate (ctx : AclVal) (route : AdminRoute)
    (h : ctx ≠ AclVal.boolVal true) :
    adminOnly ctx route = ((403, "Forbidden"), false) ∧
    (∀ r' : AdminRoute, adminOnly (AclVal.boolVal true) r' = ((200, adminHandlerText r'), true)) := by
  constructor
  · cases ctx with
    | missing => rfl
    | boolVal b =>
        cases b with
        | false => rfl
        | true => exact absurd rfl h
    | nonBool => rfl
  · intro r'
    rfl

/-- Witness for C8: a missing flag on the index route is 403 and the
handler does not run. -/
theorem C8_witness :
    adminOnly AclVal.missing AdminRoute.index = ((403, "Forbidden"), false) :=
  (C8_adminOnly_gate AclVal.missing AdminRoute.index (by simp)).1

/-- C10: slot 0 of the `Mode` and `Heating` pairs is invariant: the
never-reassigned globals `CurrentStateOfMode = "night"` and
`CurrentStateOfHeating = "off"` are written back by `dbUpdateMode`, so
after any sequence of requests (PUT /rest/v1/mode included) served from
the initial state, a GET /rest/v1/mode reports `Mode[0] = "night"` and
`Heating[0] = "off"`. -/
theorem C10_slot0_invariant (now : String) (ops : List Op) :
    CurrentStateOfMode = "night" ∧ CurrentStateOfHeating = "off" ∧
    (ops.foldl step (initState now)).Mode.1 = "night" ∧
    (ops.foldl step (initState now)).Heating.1 = "off" ∧
    (dbGetMode (ops.foldl step (initState now))).Mode.1 = "night" ∧
    (dbGetMode (ops.foldl step (initState now))).Heating.1 = "off" := by
  have h := foldl_preserves_slot0 ops (initState now) ⟨rfl, rfl⟩
  exact ⟨rfl, rfl, h.1, h.2, h.1, h.2⟩

/-- C3: a POST /rest/v1 whose body binds to an `ArticleRequest` assigns
the new article the id `toString (n + 10)` — the decimal string of a
pseudo-random integer in `[10, 109]`, `n` being the `rand.Intn(100)`
draw — appends it at the end of the articles list, leaves every
pre-existing article in place and in order, and responds 201 with the
created article. -/
theorem C3_createArticle_appends (s : State) (body : Except String ArticleBody)
    (b : ArticleBody) (req : ArticleRequest) (a : Article) (n : Nat)
    (hb : body = Except.ok b)
    (hreq : renderBindArticle none body = Except.ok req)
    (ha : req.article = some a)
    (hn : n < 100) :
    (CreateArticle s body n).1.articles =
        s.articles ++ [{ a with id := toString (n + 10) }] ∧
    (CreateArticle s body n).2 =
        Sum.inr (201,
          renderArticleResponse (NewArticleResponse { a with id := toString (n + 10) })) ∧
    10 ≤ n + 10 ∧ n + 10 ≤ 109 ∧
    (CreateArticle s body n).1.articles.take s.articles.length = s.articles := by
  subst hb
  simp only [CreateArticle, hreq, ha, dbNewArticle]
  refine ⟨trivial, trivial, by omega, by omega, ?_⟩
  simp

/-- Witness for C3: posting a concrete body with draw `n = 87` appends an
article with id "97" after the five fixture articles. -/
theorem C3_witness :
    (CreateArticle (initState "now")
        (Except.ok ⟨some "ignored", some 100, some "Awesome", some "awesome", none⟩)
        87).1.articles =
      (initState "now").articles ++
        [{ id := toString (87 + 10), userId := 100, title := "awesome", slug := "awesome" }] :=
  (C3_createArticle_appends (initState "now")
    (Except.ok ⟨some "ignored", some 100, some "Awesome", some "awesome", none⟩)
    ⟨some "ignored", some 100, some "Awesome", some "awesome", none⟩
    ⟨some ⟨"", 100, "awesome", "awesome"⟩, ""⟩
    ⟨"", 100, "awesome", "awesome"⟩ 87 rfl (by rfl) rfl (by omega)).1

/-- C4: on GET, PUT or DELETE /rest/v1/{articleID}, when some article has
the requested id, `ArticleCtx` loads the first such article and the
handler operates on it (GET renders it, DELETE removes exactly it, PUT
runs the seeded bind-and-update against it); when no article has that
id, the response is 404 with status text "Resource not found." and the
articles list is unchanged. -/
theorem C4_articleById_or_404 (s : State) (id : String) (body : Except String ArticleBody)
    (h0 : id ≠ "") :
    (∀ a, s.articles.find? (fun x => x.id == id) = some a →
        articleCtx s id "" = Except.ok a ∧
        a.id = id ∧
        (∃ l1 l2, s.articles = l1 ++ a :: l2 ∧ ∀ x ∈ l1, ¬ x.id = id) ∧
        GetArticleById s id =
          (s, Sum.inr (200, renderArticleResponse (NewArticleResponse a))) ∧
        (∃ rest, removeFirst s.articles a.id = some (a, rest) ∧
            DeleteArticleById s id =
              ({ s with articles := rest },
               Sum.inr (200, renderArticleResponse (NewArticleResponse a)))) ∧
        UpdateArticleById s id body = updateArticleFound s a body) ∧
    (s.articles.find? (fun x => x.id == id) = none →
        (¬ ∃ x ∈ s.articles, x.id = id) ∧
        GetArticleById s id = (s, Sum.inl ErrNotFound) ∧
        UpdateArticleById s id body = (s, Sum.inl ErrNotFound) ∧
        DeleteArticleById s id = (s, Sum.inl ErrNotFound) ∧
        ErrNotFound.httpStatusCode = 404 ∧
        ErrNotFound.statusText = "Resource not found.") := by
  constructor
  · intro a hfind
    have hctx : articleCtx s id "" = Except.ok a := by
      simp [articleCtx, dbGetArticle, h0, hfind]
    obtain ⟨hpa, l1, l2, hsplit, hall⟩ :=
      find?_first_split (fun x => x.id == id) s.articles a hfind
    have haid : a.id = id := by simpa using hpa
    obtain ⟨-, rest, hrest⟩ := find?_remove_first s.articles id a hfind
    refine ⟨hctx, haid, ⟨l1, l2, hsplit, ?_⟩, ?_, ⟨rest, ?_, ?_⟩, ?_⟩
    · intro x hx
      simpa using hall x hx
    · simp [GetArticleById, hctx]
    · rw [haid]; exact hrest
    · simp [DeleteArticleById, hctx, haid, hrest]
    · simp [UpdateArticleById, hctx]
  · intro hfind
    have hctx : articleCtx s id "" = Except.error ErrNotFound := by
      simp [articleCtx, dbGetArticle, h0, hfind]
    refine ⟨?_, ?_, ?_, ?_, rfl, rfl⟩
    · rintro ⟨x, hx, hxid⟩
      have := List.find?_eq_none.mp hfind x hx
      simp [hxid] at this
    · simp [GetArticleById, hctx]
    · simp [UpdateArticleById, hctx]
    · simp [DeleteArticleById, hctx]

/-- Witness for C4: fetching fixture id "1" returns the first fixture
article; fetching the absent id "99" is a 404 that leaves the state
unchanged. -/
theorem C4_witness :
    GetArticleById (initState "now") "1" =
      (initState "now",
       Sum.inr (200, renderArticleResponse (NewArticleResponse ⟨"1", 100, "Hi", "hi"⟩))) ∧
    GetArticleById (initState "now") "99" = (initState "now", Sum.inl ErrNotFound) :=
  ⟨(((C4_articleById_or_404 (initState "now") "1" (Except.error "EOF")
        (by decide)).1 ⟨"1", 100, "Hi", "hi"⟩ rfl)).2.2.2.1,
   ((C4_articleById_or_404 (initState "now") "99" (Except.error "EOF")
        (by decide)).2 rfl).2.1⟩

/-- Counterexample to C6 as stated: on PUT /rest/v1/1, a syntactically
valid body whose `slug` is well-typed but whose `user_id` carries a type
mismatch fails to bind — the response is the claimed 400 "Invalid
request." — yet global state has been modified by the failed request:
the decode wrote `slug = "hacked"` through the context pointer into the
stored article before the error was rendered. -/
theorem C6_counterexample :
    (UpdateArticleById (initState "now") "1"
        (Except.ok ⟨none, none, none, some "hacked", some "json type error"⟩)).2 =
      Sum.inl (ErrInvalidRequest "json type error") ∧
    (UpdateArticleById (initState "now") "1"
        (Except.ok ⟨none, none, none, some "hacked", some "json type error"⟩)).1 ≠
      initState "now" ∧
    (UpdateArticleById (initState "now") "1"
        (Except.ok ⟨none, none, none, some "hacked", some "json type error"⟩)).1.articles =
      ⟨"1", 100, "Hi", "hacked"⟩ :: (initState "now").articles.tail := by
  refine ⟨by decide, by decide, by decide⟩

/-- C6 (amended): a body that fails to bind is answered 400 with status
text "Invalid request.".  On POST /rest/v1, PUT /rest/v1/time,
PUT /rest/v1/temp and PUT /rest/v1/mode — whose decode targets are fresh
structs — no global state is modified, and a malformed (undecodable)
body on PUT /rest/v1/{articleID} likewise decodes nothing; but on
PUT /rest/v1/{articleID} a syntactically valid body failing on a type
mismatch has already written its well-typed fields through the context
pointer into the stored article when the 400 is rendered. -/
theorem C6_bind_failure_400 (s : State) (e : String) (n : Nat) (r : ℚ) (id : String) :
    CreateArticle s (Except.error e) n = (s, Sum.inl (ErrInvalidRequest e)) ∧
    UpdateTime s (Except.error e) = (s, Sum.inl (ErrInvalidRequest e)) ∧
    UpdateTemp s (Except.error e) r = (s, Sum.inl (ErrInvalidRequest e)) ∧
    UpdateMode s (Except.error e) = (s, Sum.inl (ErrInvalidRequest e)) ∧
    (∀ b : ArticleBody, b.typeError = some e →
        CreateArticle s (Except.ok b) n = (s, Sum.inl (ErrInvalidRequest e))) ∧
    (∀ a, id ≠ "" → dbGetArticle s id = some a →
        UpdateArticleById s id (Except.error e) = (s, Sum.inl (ErrInvalidRequest e))) ∧
    (∀ a b, id ≠ "" → dbGetArticle s id = some a → b.typeError = some e →
        UpdateArticleById s id (Except.ok b) =
          (dbUpdateArticle s a.id (applyBody a b), Sum.inl (ErrInvalidRequest e))) ∧
    (∀ b : ArticleBody, b.typeError = none → b.userId = none → b.title = none →
        b.slug = none →
        CreateArticle s (Except.ok b) n =
          (s, Sum.inl (ErrInvalidRequest "missing required Article fields"))) ∧
    (ErrInvalidRequest e).httpStatusCode = 400 ∧
    (ErrInvalidRequest e).statusText = "Invalid request." := by
  refine ⟨rfl, rfl, rfl, rfl, ?_, ?_, ?_, ?_, rfl, rfl⟩
  · intro b htb
    simp [CreateArticle, renderBindArticle, htb]
  · intro a hid ha
    have hctx : articleCtx s id "" = Except.ok a := by
      simp [articleCtx, hid, ha]
    simp [UpdateArticleById, hctx, updateArticleFound]
  · intro a b hid ha htb
    have hctx : articleCtx s id "" = Except.ok a := by
      simp [articleCtx, hid, ha]
    simp [UpdateArticleById, hctx, updateArticleFound, htb]
  · intro b ht h1 h2 h3
    simp [CreateArticle, renderBindArticle, decodeArticleRequest, articleRequestBind,
      ht, h1, h2, h3]

/-- Witness for C6 (amended): an undecodable body on PUT /rest/v1/temp
leaves the state untouched with a 400, while a type-mismatch body on
PUT /rest/v1/1 gets its 400 only after the through-pointer write. -/
theorem C6_witness :
    UpdateTemp (initState "now") (Except.error "EOF") 0 =
        (initState "now", Sum.inl (ErrInvalidRequest "EOF")) ∧
      UpdateArticleById (initState "now") "1"
          (Except.ok ⟨none, none, none, some "hacked", some "boom"⟩) =
        (dbUpdateArticle (initState "now") "1"
           (applyBody ⟨"1", 100, "Hi", "hi"⟩
             ⟨none, none, none, some "hacked", some "boom"⟩),
         Sum.inl (ErrInvalidRequest "boom")) :=
  ⟨(C6_bind_failure_400 (initState "now") "EOF" 0 0 "1").2.2.1,
   (C6_bind_failure_400 (initState "now") "boom" 0 0 "1").2.2.2.2.2.2.1
     ⟨"1", 100, "Hi", "hi"⟩ ⟨none, none, none, some "hacked", some "boom"⟩
     (by decide) rfl rfl⟩

/-- C7: a GET /rest/v1/{articleSlug} whose path parameter matches
`[a-z-]+` answers with the first article whose `Slug` equals the
parameter, or 404 when no article has that slug. -/
theorem C7_slug_lookup (s : State) (slug : String) (h : slugPattern slug = true) :
    (∀ a, s.articles.find? (fun x => x.slug == slug) = some a →
        a.slug = slug ∧
        (∃ l1 l2, s.articles = l1 ++ a :: l2 ∧ ∀ x ∈ l1, ¬ x.slug = slug) ∧
        GetArticleBySlugReq s slug =
          (s, Sum.inr (200, renderArticleResponse (NewArticleResponse a)))) ∧
    (s.articles.find? (fun x => x.slug == slug) = none →
        (¬ ∃ x ∈ s.articles, x.slug = slug) ∧
        GetArticleBySlugReq s slug = (s, Sum.inl ErrNotFound) ∧
        ErrNotFound.httpStatusCode = 404) := by
  have hne : slug ≠ "" := by
    intro hs
    rw [hs] at h
    simp [slugPattern] at h
  constructor
  · intro a hfind
    have hctx : articleCtx s "" slug = Except.ok a := by
      simp [articleCtx, dbGetArticleBySlug, hne, hfind]
    obtain ⟨hpa, l1, l2, hsplit, hall⟩ :=
      find?_first_split (fun x => x.slug == slug) s.articles a hfind
    refine ⟨by simpa using hpa, ⟨l1, l2, hsplit, ?_⟩, ?_⟩
    · intro x hx
      simpa using hall x hx
    · simp [GetArticleBySlugReq, hctx]
  · intro hfind
    have hctx : articleCtx s "" slug = Except.error ErrNotFound := by
      simp [articleCtx, dbGetArticleBySlug, hne, hfind]
    refine ⟨?_, ?_, rfl⟩
    · rintro ⟨x, hx, hxslug⟩
      have := List.find?_eq_none.mp hfind x hx
      simp [hxslug] at this
    · simp [GetArticleBySlugReq, hctx]

/-- Witness for C7: the pattern-matching slug "whats-up" returns the
fifth fixture article. -/
theorem C7_witness :
    GetArticleBySlugReq (initState "now") "whats-up" =
      (initState "now",
       Sum.inr (200,
         renderArticleResponse (NewArticleResponse ⟨"5", 500, "whats up", "whats-up"⟩))) :=
  (((C7_slug_lookup (initState "now") "whats-up" (by decide)).1
      ⟨"5", 500, "whats up", "whats-up"⟩ rfl)).2.2

/-- C9: the body's `id` field never determines a stored article's id: it
decodes into `ProtectedID` (which `Bind` resets to the empty string),
never into `Article.ID`; create stores the randomly generated id
regardless of the body's `id`, and an update keeps the id the loaded
article already had. -/
theorem C9_body_id_never_stored (b : ArticleBody) (p : Article) :
    (decodeArticleRequest none b).protectedID = b.id.getD "" ∧
    (∀ a, (decodeArticleRequest none b).article = some a → a.id = "") ∧
    (∃ a, (decodeArticleRequest (some p) b).article = some a ∧ a.id = p.id) ∧
    (∀ prev req, articleRequestBind (decodeArticleRequest prev b) = Except.ok req →
        req.protectedID = "") ∧
    (∀ req art, renderBindArticle (some p) (Except.ok b) = Except.ok req →
        req.article = some art → art.id = p.id) ∧
    (∀ (s : State) (n : Nat) req art,
        renderBindArticle none (Except.ok b) = Except.ok req →
        req.article = some art →
        (CreateArticle s (Except.ok b) n).1.articles.getLast? =
          some { art with id := toString (n + 10) }) := by
  refine ⟨rfl, ?_, ⟨_, rfl, rfl⟩, ?_, ?_, ?_⟩
  · intro a ha
    by_cases hc : (b.userId.isSome || b.title.isSome || b.slug.isSome) = true
    · simp only [decodeArticleRequest, hc, if_true, Option.map_some] at ha
      cases ha
      rfl
    · simp only [decodeArticleRequest, eq_false_of_ne_true hc, if_false,
        Option.map_none] at ha
      cases ha
  · intro prev req hok
    simp only [articleRequestBind] at hok
    rcases harticle : (decodeArticleRequest prev b).article with _ | art
    · rw [harticle] at hok
      cases hok
    · rw [harticle] at hok
      cases hok
      rfl
  · intro req art hok hart
    rcases htb : b.typeError with _ | e
    · have hok' : articleRequestBind (decodeArticleRequest (some p) b) =
          Except.ok ⟨some ⟨p.id, b.userId.getD p.userId,
            lowerString (b.title.getD p.title), b.slug.getD p.slug⟩, ""⟩ := rfl
      simp only [renderBindArticle, htb, hok'] at hok
      cases hok
      cases hart
      rfl
    · simp only [renderBindArticle, htb] at hok
      cases hok
  · intro s n req art hok hart
    simp [CreateArticle, hok, hart, dbNewArticle]

/-- Witness for C9: a body whose `id` is "evil" decodes it into
`ProtectedID`, not into the article. -/
theorem C9_witness :
    (decodeArticleRequest none
        ⟨some "evil", some 1, some "t", some "t", none⟩).protectedID = "evil" :=
  (C9_body_id_never_stored ⟨some "evil", some 1, some "t", some "t", none⟩
    ⟨"1", 100, "Hi", "hi"⟩).1

end Webserver
